import Mathlib

/-!
Verification of the performance-measurement core of the GPT-OSS benchmark
(`scripts/performance_benchmark.py`).

The Python code is shallowly embedded: `PerformanceBenchmark.run_inference`
becomes a pure function of the observable behaviour of the spawned inference
process (the timestamps at which `readline` yields each line, the time at
which the stream reaches end-of-file, and the time and status of process
exit), `run_benchmark` becomes a fold over a list of per-trial setups, and
`display_summary` / its inner `stats` become functions on lists of trial
results.  Wall-clock instants and durations are modelled as rationals;
Python text is modelled as lists of characters; Python `round` and `int`
are modelled exactly on rationals (the binary floating-point representation
error is not modelled).
-/

namespace PerfBench

/-- Python text, modelled as its sequence of characters. -/
abbrev PyStr := List Char

/-- Whitespace test used by Python `str.strip` / `str.rstrip`. -/
def isWs (c : Char) : Bool := c.isWhitespace

/-- Python `str.strip()`: drop whitespace from both ends. -/
def pyStrip (s : PyStr) : PyStr :=
  ((s.dropWhile isWs).reverse.dropWhile isWs).reverse

/-- Python `str.rstrip()`: drop whitespace from the right end. -/
def pyRstrip (s : PyStr) : PyStr :=
  (s.reverse.dropWhile isWs).reverse

/-- Python `'\n'.join(parts)`. -/
def pyJoinLines (parts : List PyStr) : PyStr :=
  List.intercalate ['\n'] parts

/-- Truthiness of an optional Python float: `None` and `0.0` are falsy,
every other value is truthy.  Used where the source tests
`if first_token_time` rather than `if first_token_time is not None`. -/
def pyTruthy : Option ℚ → Bool
  | none => false
  | some t => t != 0

/-- Python `int()` applied to a (rational-modelled) float: truncation
toward zero. -/
def pyInt (x : ℚ) : ℤ := Int.sign x.num * (x.num.natAbs / x.den : ℕ)

/-- Rounding to the nearest integer with ties to even, the rounding mode of
Python `round`. -/
def roundHalfEven (s : ℚ) : ℤ :=
  if s - ⌊s⌋ < 1 / 2 then ⌊s⌋
  else if 1 / 2 < s - ⌊s⌋ then ⌊s⌋ + 1
  else if ⌊s⌋ % 2 = 0 then ⌊s⌋ else ⌊s⌋ + 1

/-- Python `round(x, d)`: `x` rounded to `d` decimal digits, ties to even. -/
def pyRound (d : ℕ) (x : ℚ) : ℚ := (roundHalfEven (x * 10 ^ d) : ℚ) / 10 ^ d

/-- A GPU telemetry snapshot as produced by `get_gpu_metrics` (field for
field the dictionary built from the pynvml counters). -/
structure GpuMetrics where
  memoryUsedMb : ℚ
  memoryTotalMb : ℚ
  memoryPercent : ℚ
  gpuUtilization : ℚ
  temperature : ℚ
deriving DecidableEq

/-- The result dictionary returned by `run_inference` (plus the
`test_number` / `question` keys that `run_benchmark` adds afterwards).
Python dictionaries with different key sets are modelled by one structure of
optional fields: `none` means the key is absent from the dictionary.  For
the telemetry keys, `some none` means the key is present but holds Python
`None` (telemetry unavailable), while `none` means `run_inference` never put
the key in the dictionary at all. -/
structure TrialResult where
  success : Bool
  modelName : Option String := none
  error : Option String := none
  promptLength : Option ℕ := none
  responseLength : Option ℕ := none
  inputTokensEst : Option ℤ := none
  outputTokensEst : Option ℤ := none
  totalTokensEst : Option ℤ := none
  totalTime : Option ℚ := none
  ttft : Option ℚ := none
  tokensPerSecond : Option ℚ := none
  throughput : Option ℚ := none
  gpuBefore : Option (Option GpuMetrics) := none
  gpuAfter : Option (Option GpuMetrics) := none
  response : Option PyStr := none
  testNumber : Option ℕ := none
  question : Option String := none
deriving DecidableEq

/-- Observable behaviour of one spawned inference process, seen from the
reading side: `lines` are the successive strings returned by
`process.stdout.readline` (with the wall-clock instant at which each read
returns), `eof` is the instant at which `readline` returns the empty string
(`none` when the stream never closes, i.e. the process neither exits nor
closes stdout), `exitTime` is the instant of process exit and `exitCode`
its exit status (negative for a signal kill, as in Python). -/
structure ProcBehavior where
  lines : List (ℚ × PyStr)
  eof : Option ℚ
  exitTime : ℚ
  exitCode : ℤ
deriving DecidableEq

/-- Outcome of `subprocess.Popen`: either the spawn raises (missing binary,
bad arguments — message `msg` is `str(e)`), or a process starts and behaves
as `b`. -/
inductive Launch where
  | fails (msg : String)
  | starts (b : ProcBehavior)
deriving DecidableEq

/-- Outcome of one call to `run_inference`: either the call returns a result
dictionary, or it never returns (blocks forever). -/
inductive RunResult where
  | returns (r : TrialResult)
  | hangs
deriving DecidableEq

/-- The result carried by a `RunResult`, `none` when the call hangs. -/
def RunResult.toOption : RunResult → Option TrialResult
  | .returns r => some r
  | .hangs => none

/-- `estimate_tokens`: rough token estimation, one token per four
characters (`len(text) / 4`). -/
def estimate_tokens (text : PyStr) : ℚ := (text.length : ℚ) / 4

/-- The `for line in iter(process.stdout.readline, '')` loop of
`run_inference`: blank lines (those whose `strip()` is empty) are skipped
entirely; the first non-blank line fixes `first_token_time` (idempotently),
and every non-blank line is appended `rstrip`-ped to `output_lines`. -/
def readLoopAux : List (ℚ × PyStr) → List PyStr → Option ℚ → List PyStr × Option ℚ
  | [], acc, ft => (acc.reverse, ft)
  | (t, line) :: rest, acc, ft =>
    if pyStrip line = [] then
      readLoopAux rest acc ft
    else
      readLoopAux rest (pyRstrip line :: acc)
        (match ft with
         | none => some t
         | some s => some s)

/-- The whole read loop of `run_inference`: the collected `output_lines` and
the recorded `first_token_time`. -/
def readLoop (lines : List (ℚ × PyStr)) : List PyStr × Option ℚ :=
  readLoopAux lines [] none

/-- The error dictionary built in the two `except` branches of
`run_inference` (its timestamp key is omitted; it plays no role in any
claim). -/
def errorResult (model msg : String) : TrialResult :=
  { success := false, modelName := some model, error := some msg }

/-- The `tokens_per_second` computation of `run_inference` (lines 143-146 of
the source): output tokens over the post-first-token span when that span is
positive, otherwise over the whole duration when that is positive,
otherwise `0`. -/
def tokensPerSecondOf (totalTime ttft outputTokens : ℚ) : ℚ :=
  if totalTime > ttft then outputTokens / (totalTime - ttft)
  else if totalTime > 0 then outputTokens / totalTime else 0

/-- The success dictionary of `run_inference` (lines 130-167 of the
source), as a function of the raw measurements: `endTime` is the instant
`process.wait` returned, `outputLines` and `firstTokenTime` are the outcome
of the read loop. -/
def successResult (model : String) (prompt : PyStr)
    (gpuBefore gpuAfter : Option GpuMetrics) (start endTime : ℚ)
    (outputLines : List PyStr) (firstTokenTime : Option ℚ) : TrialResult :=
  let fullResponse := pyJoinLines outputLines
  let totalTime := endTime - start
  let ttft := if pyTruthy firstTokenTime then firstTokenTime.getD 0 - start
              else totalTime
  let inputTokens := estimate_tokens prompt
  let outputTokens := estimate_tokens fullResponse
  let totalTokens := inputTokens + outputTokens
  let tps := tokensPerSecondOf totalTime ttft outputTokens
  { success := true
    modelName := some model
    promptLength := some prompt.length
    responseLength := some fullResponse.length
    inputTokensEst := some (pyInt inputTokens)
    outputTokensEst := some (pyInt outputTokens)
    totalTokensEst := some (pyInt totalTokens)
    totalTime := some (pyRound 3 totalTime)
    ttft := some (pyRound 3 ttft)
    tokensPerSecond := some (pyRound 2 tps)
    throughput :=
      some (if totalTime > 0 then pyRound 2 (totalTokens / totalTime) else 0)
    gpuBefore := some gpuBefore
    gpuAfter := some gpuAfter
    response :=
      some (if fullResponse.length > 500 then fullResponse.take 500 ++ "...".toList
            else fullResponse) }

/-- Shallow embedding of `PerformanceBenchmark.run_inference`.

`gpuBefore` / `gpuAfter` are the values `get_gpu_metrics()` would return at
its two call sites; `start` is the value of `time.time()` taken just before
the `try` block; `launch` is the behaviour of the spawn.

Faithful to the source:
* a spawn exception is caught by the generic `except Exception` and turned
  into a failure dictionary carrying `str(e)`;
* the read loop consumes `stdout` until end-of-file, so when the stream
  never closes the call blocks forever (`.hangs`) — `process.wait(timeout)`
  is only reached after end-of-file;
* `process.wait(timeout=timeout)` raises `TimeoutExpired` exactly when the
  process is still alive `timeout` seconds after the call, i.e. when
  `exitTime > eof + timeout`; the handler kills the process and returns the
  `Timeout` failure dictionary;
* otherwise `end_time` is taken when `wait` returns, which is `eof` when the
  process has already exited by then and `exitTime` otherwise, and the
  success dictionary is built; the exit status returned by `wait` is never
  examined. -/
def run_inference (model : String) (prompt : PyStr) (timeout : ℚ)
    (gpuBefore gpuAfter : Option GpuMetrics) (start : ℚ) (launch : Launch) :
    RunResult :=
  match launch with
  | .fails msg => .returns (errorResult model msg)
  | .starts b =>
    match b.eof with
    | none => .hangs
    | some tEof =>
      let p := readLoop b.lines
      let outputLines := p.1
      let firstTokenTime := p.2
      if tEof + timeout < b.exitTime then
        .returns (errorResult model "Timeout")
      else
        .returns (successResult model prompt gpuBefore gpuAfter start
          (max tEof b.exitTime) outputLines firstTokenTime)

/-- Physical well-formedness of a process behaviour relative to the recorded
`start` instant: the wall clock is positive (as `time.time()` is), every
line is read after `start` and no later than end-of-file, and end-of-file
and process exit come after `start`. -/
structure ProcBehavior.WF (start : ℚ) (b : ProcBehavior) : Prop where
  start_pos : 0 < start
  lines_ge_start : ∀ p ∈ b.lines, start ≤ p.1
  lines_le_eof : ∀ tEof, b.eof = some tEof → ∀ p ∈ b.lines, p.1 ≤ tEof
  start_le_eof : ∀ tEof, b.eof = some tEof → start ≤ tEof
  start_le_exit : start ≤ b.exitTime

/-- Input of one trial of the benchmark loop: the prompt and its reporting
label, the wall-clock start instant of the trial, the behaviour of the
spawn, and the telemetry readings available before and after. -/
structure TrialSetup where
  question : String
  prompt : PyStr
  start : ℚ
  launch : Launch
  gpuBefore : Option GpuMetrics
  gpuAfter : Option GpuMetrics
deriving DecidableEq

/-- The two keys `run_benchmark` adds to each result dictionary after
`run_inference` returns: `result['test_number'] = i` and
`result['question'] = question`. -/
def withTestInfo (i : ℕ) (q : String) (r : TrialResult) : TrialResult :=
  { r with testNumber := some i, question := some q }

/-- `run_inference` as called by the benchmark loop on one setup. -/
def runSetup (model : String) (timeout : ℚ) (s : TrialSetup) : RunResult :=
  run_inference model s.prompt timeout s.gpuBefore s.gpuAfter s.start s.launch

/-- The `for i, prompt_data in enumerate(test_prompts, 1)` loop of
`run_benchmark`: each trial's result is decorated with its 1-based index and
question and appended to `self.results`; a trial that hangs hangs the whole
loop (`none`). -/
def runBenchmarkAux (model : String) (timeout : ℚ) :
    List TrialSetup → ℕ → List TrialResult → Option (List TrialResult)
  | [], _, acc => some acc.reverse
  | s :: rest, i, acc =>
    match runSetup model timeout s with
    | .hangs => none
    | .returns r =>
      runBenchmarkAux model timeout rest (i + 1) (withTestInfo i s.question r :: acc)

/-- Shallow embedding of the trial loop of
`PerformanceBenchmark.run_benchmark` over a given list of selected prompts
(result collection only; progress display and saving are presentation). -/
def run_benchmark (model : String) (timeout : ℚ) (setups : List TrialSetup) :
    Option (List TrialResult) :=
  runBenchmarkAux model timeout setups 1 []

/-- The four statistics the summary table shows for one metric. -/
structure MetricStats where
  min : ℚ
  max : ℚ
  mean : ℚ
  median : ℚ
deriving DecidableEq

/-- The inner `stats` helper of `display_summary`: `None` for an empty value
list, otherwise Python's `min`, `max`, `sum/len` and
`sorted(values)[len//2]`.  Python `sorted` is a stable sort and is modelled
by `List.insertionSort`, which is extensionally the same function; the
`:.2f` string formatting of the table is presentation and not modelled. -/
def stats : List ℚ → Option MetricStats
  | [] => none
  | v :: vs =>
    let sortedVals := (v :: vs).insertionSort (· ≤ ·)
    some { min := vs.foldl Min.min v
           max := vs.foldl Max.max v
           mean := (v :: vs).sum / ((v :: vs).length : ℚ)
           median := sortedVals.getD ((v :: vs).length / 2) 0 }

/-- The `successful_results` filter of `display_summary`. -/
def successfulResults (rs : List TrialResult) : List TrialResult :=
  rs.filter (fun r => r.success)

/-- The numeric content of the summary table plus the success counts. -/
structure Summary where
  totalTimeStats : Option MetricStats
  ttftStats : Option MetricStats
  tokensPerSecondStats : Option MetricStats
  throughputStats : Option MetricStats
  successCount : ℕ
  totalCount : ℕ
deriving DecidableEq

/-- Shallow embedding of `PerformanceBenchmark.display_summary`: with no
successful result the function prints a notice and returns without any
summary (`none`); otherwise each metric column is `stats` of that metric
read off the successful results. -/
def display_summary (rs : List TrialResult) : Option Summary :=
  let ok := successfulResults rs
  if ok.isEmpty then none
  else
    some { totalTimeStats := stats (ok.map (fun r => r.totalTime.getD 0))
           ttftStats := stats (ok.map (fun r => r.ttft.getD 0))
           tokensPerSecondStats := stats (ok.map (fun r => r.tokensPerSecond.getD 0))
           throughputStats := stats (ok.map (fun r => r.throughput.getD 0))
           successCount := ok.length
           totalCount := rs.length }

/-! ## Basic shape lemmas about `run_inference` -/

/-- A spawn exception is caught by the generic handler and turned into a
failure dictionary carrying the exception text. -/
theorem run_inference_fails (model : String) (prompt : PyStr) (timeout : ℚ)
    (gB gA : Option GpuMetrics) (start : ℚ) (msg : String) :
    run_inference model prompt timeout gB gA start (.fails msg) =
      .returns (errorResult model msg) := rfl

/-- When the output stream never closes, the read loop never finishes and
`run_inference` never returns. -/
theorem run_inference_hangs (model : String) (prompt : PyStr) (timeout : ℚ)
    (gB gA : Option GpuMetrics) (start : ℚ) (b : ProcBehavior)
    (h : b.eof = none) :
    run_inference model prompt timeout gB gA start (.starts b) = .hangs := by
  simp only [run_inference, h]

/-- When the process is still alive `timeout` seconds after the read loop
saw end-of-file, `process.wait` raises, the process is killed and the
`Timeout` failure dictionary is returned. -/
theorem run_inference_timeout (model : String) (prompt : PyStr) (timeout : ℚ)
    (gB gA : Option GpuMetrics) (start : ℚ) (b : ProcBehavior) (tEof : ℚ)
    (h : b.eof = some tEof) (ht : tEof + timeout < b.exitTime) :
    run_inference model prompt timeout gB gA start (.starts b) =
      .returns (errorResult model "Timeout") := by
  simp only [run_inference, h, if_pos ht]

/-- When the process exits within `timeout` seconds of the read loop seeing
end-of-file, the success dictionary is returned, built from the read-loop
outcome and the instant `wait` returned. -/
theorem run_inference_success (model : String) (prompt : PyStr) (timeout : ℚ)
    (gB gA : Option GpuMetrics) (start : ℚ) (b : ProcBehavior) (tEof : ℚ)
    (h : b.eof = some tEof) (ht : ¬tEof + timeout < b.exitTime) :
    run_inference model prompt timeout gB gA start (.starts b) =
      .returns (successResult model prompt gB gA start (max tEof b.exitTime)
        (readLoop b.lines).1 (readLoop b.lines).2) := by
  simp only [run_inference, h, if_neg ht]

/-- The `first_token_time` recorded by the read loop is the read timestamp
of one of the lines (assuming it was not already set on entry). -/
theorem readLoopAux_ft_mem (ls : List (ℚ × PyStr)) :
    ∀ acc ft t, (readLoopAux ls acc ft).2 = some t →
      ft = some t ∨ ∃ p ∈ ls, p.1 = t := by
  induction ls with
  | nil =>
    intro acc ft t h
    exact .inl h
  | cons hd tl ih =>
    intro acc ft t h
    obtain ⟨tq, line⟩ := hd
    rw [readLoopAux.eq_def] at h
    simp only at h
    by_cases hb : pyStrip line = []
    · rw [if_pos hb] at h
      rcases ih _ _ _ h with h' | ⟨p, hp, hpt⟩
      · exact .inl h'
      · exact .inr ⟨p, List.mem_cons_of_mem _ hp, hpt⟩
    · rw [if_neg hb] at h
      rcases ih _ _ _ h with h' | ⟨p, hp, hpt⟩
      · cases ft with
        | none =>
          refine .inr ⟨(tq, line), List.mem_cons_self _ _, ?_⟩
          simpa using h'
        | some s => exact .inl h'
      · exact .inr ⟨p, List.mem_cons_of_mem _ hp, hpt⟩

/-- The `first_token_time` recorded by the whole read loop is the read
timestamp of one of the lines. -/
theorem readLoop_ft_mem (ls : List (ℚ × PyStr)) (t : ℚ)
    (h : (readLoop ls).2 = some t) : ∃ p ∈ ls, p.1 = t := by
  rcases readLoopAux_ft_mem ls [] none t h with h' | h'
  · exact absurd h' (by simp)
  · exact h'

/-! ## Concrete process behaviours used as test inputs -/

/-- A process that emits nothing, never closes its stdout and never
exits. -/
def bSilent : ProcBehavior :=
  { lines := [], eof := none, exitTime := 1000, exitCode := 0 }

/-- A process that (with `start = 1`) produces its first output 2 s in and
completes 6 s in: one line at instant 3, stream end and exit at instant
7. -/
def bLate : ProcBehavior :=
  { lines := [(3, ['t', 'o', 'k', '\n'])], eof := some 7, exitTime := 7, exitCode := 0 }

/-- A process that produces no output, closes its stdout at instant 2 and
exits with status 1. -/
def bExit1 : ProcBehavior :=
  { lines := [], eof := some 2, exitTime := 2, exitCode := 1 }

/-- A process that produces no output, closes its stdout at instant 2 and
lingers until instant 20, so that `process.wait(timeout=5)` raises. -/
def bLinger : ProcBehavior :=
  { lines := [], eof := some 2, exitTime := 20, exitCode := 0 }

/-- A sample telemetry snapshot. -/
def g0 : GpuMetrics :=
  { memoryUsedMb := 1024, memoryTotalMb := 2048, memoryPercent := 50,
    gpuUtilization := 10, temperature := 40 }

/-! ## Claims -/

/-- C1: the claim says that a trial whose process emits no output and does
not exit is still terminated once `timeout` elapses and classified
`Timeout`.  The code contradicts it: the `readline` loop blocks until
end-of-file, which never comes, so `run_inference` never returns and never
kills the process — the `process.wait(timeout=timeout)` call and its
`TimeoutExpired` handler, clearly put there to enforce the limit, are
unreachable.  This theorem evaluates the code at such an input (no output,
stream never closes, `timeout = 5`). -/
theorem C1_silent_hung_process_never_killed :
    run_inference "gpt-oss:20b" ['h', 'i'] 5 none none 1 (.starts bSilent) =
      .hangs :=
  run_inference_hangs "gpt-oss:20b" ['h', 'i'] 5 none none 1 bSilent rfl

/-- C2 counterexample: with `timeout = 5` and `start = 1`, a process whose
first output arrives at instant 3 (2 s in) and which completes at instant 7
(6 s in) is classified a success with `total_time = 6`, not `Timeout` as
the claim demands. -/
theorem C2_counterexample :
    (run_inference "gpt-oss:20b" ['p'] 5 none none 1 (.starts bLate)).toOption.map
      (fun r => (r.success, r.error, r.totalTime)) = some (true, none, some 6) := by
  rw [run_inference_success "gpt-oss:20b" ['p'] 5 none none 1 bLate 7 rfl
    (by norm_num [bLate])]
  have hrl : readLoop bLate.lines = ([['t', 'o', 'k']], some 3) := by decide
  rw [hrl]
  simp only [RunResult.toOption, Option.map, successResult]
  norm_num [bLate, pyRound, roundHalfEven]

/-- C2 amended: the `Timeout` classification is not decided against elapsed
time since `start`.  Once the read loop has consumed the stream to
end-of-file at `tEof`, the trial is `Timeout` exactly when process exit
lies more than `timeout` after `tEof`; otherwise it is a success —
whatever the total elapsed time from `start`, and even when a first token
was observed before the deadline. -/
theorem C2_timeout_measured_from_eof (model : String) (prompt : PyStr)
    (timeout : ℚ) (gB gA : Option GpuMetrics) (start : ℚ) (b : ProcBehavior)
    (tEof : ℚ) (h : b.eof = some tEof) :
    (tEof + timeout < b.exitTime ∧
      run_inference model prompt timeout gB gA start (.starts b) =
        .returns (errorResult model "Timeout")) ∨
    (b.exitTime ≤ tEof + timeout ∧
      ∃ r, run_inference model prompt timeout gB gA start (.starts b) =
          .returns r ∧
        r.success = true ∧
        r.totalTime = some (pyRound 3 (max tEof b.exitTime - start))) := by
  by_cases ht : tEof + timeout < b.exitTime
  · exact .inl ⟨ht, run_inference_timeout model prompt timeout gB gA start b tEof h ht⟩
  · exact .inr ⟨le_of_not_lt ht,
      ⟨_, run_inference_success model prompt timeout gB gA start b tEof h ht,
        rfl, rfl⟩⟩

/-- C2 witness: the amended statement applied to a process that closes its
stream at instant 2 but exits only at instant 20, with `timeout = 5`: the
residual wait exceeds the limit and the `Timeout` dictionary comes back. -/
theorem C2_witness :
    run_inference "gpt-oss:20b" ['p'] 5 none none 1 (.starts bLinger) =
      .returns (errorResult "gpt-oss:20b" "Timeout") := by
  rcases C2_timeout_measured_from_eof "gpt-oss:20b" ['p'] 5 none none 1 bLinger 2 rfl with
    ⟨_, h⟩ | ⟨hle, _⟩
  · exact h
  · norm_num [bLinger] at hle

/-- C3 counterexample: a process that starts, produces no output, and exits
with status 1 — an abnormal termination — is classified a success by the
code (`success = True`, no error key), not the `ProcessError` failure the
claim demands. -/
theorem C3_counterexample :
    (run_inference "gpt-oss:20b" ['p'] 300 none none 1 (.starts bExit1)).toOption.map
      (fun r => (r.success, r.error)) = some (true, none) := by
  rw [run_inference_success "gpt-oss:20b" ['p'] 300 none none 1 bExit1 2 rfl
    (by norm_num [bExit1])]
  rfl

/-- C3 amended: only a spawn exception produces a failure result (carrying
the exception text).  Once the process has started and its stream has
closed in time, the exit status is never examined: the result is the same
for every exit code — non-zero exit and signal kill included — and has
`success = true`. -/
theorem C3_exit_status_never_examined (model : String) (prompt : PyStr)
    (timeout : ℚ) (gB gA : Option GpuMetrics) (start : ℚ) (b : ProcBehavior)
    (tEof : ℚ) (h : b.eof = some tEof) (ht : ¬tEof + timeout < b.exitTime) :
    (∀ c c' : ℤ,
      run_inference model prompt timeout gB gA start
          (.starts { b with exitCode := c }) =
        run_inference model prompt timeout gB gA start
          (.starts { b with exitCode := c' })) ∧
    (∃ r, run_inference model prompt timeout gB gA start (.starts b) =
        .returns r ∧ r.success = true) ∧
    ∀ msg, run_inference model prompt timeout gB gA start (.fails msg) =
        .returns (errorResult model msg) ∧
      (errorResult model msg).success = false := by
  refine ⟨?_, ?_, ?_⟩
  · intro c c'
    rw [run_inference_success model prompt timeout gB gA start
        { b with exitCode := c } tEof h ht,
      run_inference_success model prompt timeout gB gA start
        { b with exitCode := c' } tEof h ht]
  · exact ⟨_, run_inference_success model prompt timeout gB gA start b tEof h ht, rfl⟩
  · intro msg
    exact ⟨run_inference_fails model prompt timeout gB gA start msg, rfl⟩

/-- C3 witness: the amended statement applied to the status-1 process. -/
theorem C3_witness :
    ∃ r, run_inference "gpt-oss:20b" ['p'] 300 none none 1 (.starts bExit1) =
        .returns r ∧ r.success = true :=
  (C3_exit_status_never_examined "gpt-oss:20b" ['p'] 300 none none 1 bExit1 2 rfl
    (by norm_num [bExit1])).2.1

/-- C4 counterexample: a timed-out trial, run while telemetry is available
(`get_gpu_metrics()` would return a snapshot at both call sites), comes
back with `success = False` and with neither the `gpu_after` nor the
`gpu_before` key in its dictionary — the claim demands that the failed
result still carry the post-invocation telemetry field. -/
theorem C4_counterexample :
    (run_inference "gpt-oss:20b" ['p'] 5 (some g0) (some g0) 1
        (.starts bLinger)).toOption.map
      (fun r => (r.success, r.gpuAfter, r.gpuBefore)) =
      some (false, none, none) := by
  rw [run_inference_timeout "gpt-oss:20b" ['p'] 5 (some g0) (some g0) 1 bLinger 2 rfl
    (by norm_num [bLinger])]
  rfl

/-- C4 amended: telemetry is recorded only on the success path.  Whenever
`run_inference` returns, a successful result carries both telemetry keys
(holding whatever the sampler returned at the two call sites, possibly
`None`), and a failed result — timeout or spawn failure — carries neither
`gpu_before` nor `gpu_after`, even when telemetry is available. -/
theorem C4_telemetry_only_on_success (model : String) (prompt : PyStr)
    (timeout : ℚ) (gB gA : Option GpuMetrics) (start : ℚ) (launch : Launch)
    (r : TrialResult)
    (h : run_inference model prompt timeout gB gA start launch = .returns r) :
    (r.success = true → r.gpuBefore = some gB ∧ r.gpuAfter = some gA) ∧
    (r.success = false → r.gpuBefore = none ∧ r.gpuAfter = none) := by
  cases launch with
  | fails msg =>
    rw [run_inference_fails] at h
    obtain rfl := (RunResult.returns.injEq _ _).mp h
    exact ⟨fun hs => by simp [errorResult] at hs, fun _ => ⟨rfl, rfl⟩⟩
  | starts b =>
    cases heof : b.eof with
    | none =>
      rw [run_inference_hangs model prompt timeout gB gA start b heof] at h
      exact absurd h (by simp)
    | some tEof =>
      by_cases ht : tEof + timeout < b.exitTime
      · rw [run_inference_timeout model prompt timeout gB gA start b tEof heof ht] at h
        obtain rfl := (RunResult.returns.injEq _ _).mp h
        exact ⟨fun hs => by simp [errorResult] at hs, fun _ => ⟨rfl, rfl⟩⟩
      · rw [run_inference_success model prompt timeout gB gA start b tEof heof ht] at h
        obtain rfl := (RunResult.returns.injEq _ _).mp h
        exact ⟨fun _ => ⟨rfl, rfl⟩, fun hs => by simp [successResult] at hs⟩

/-- Whether a `RunResult` actually returned a dictionary. -/
def RunResult.isReturns : RunResult → Bool
  | .returns _ => true
  | .hangs => false

/-- The benchmark loop, started at index `i` with already-collected results
`acc`: when every remaining trial returns, it produces the collected
results followed by one decorated result per setup, in setup order, the
`j`-th decorated with index `i + j`. -/
theorem runBenchmarkAux_spec (model : String) (timeout : ℚ) :
    ∀ (setups : List TrialSetup) (i : ℕ) (acc : List TrialResult),
      (∀ s ∈ setups, (runSetup model timeout s).isReturns = true) →
      ∃ rs, runBenchmarkAux model timeout setups i acc =
          some (acc.reverse ++ rs) ∧
        rs.length = setups.length ∧
        ∀ j (hj : j < setups.length),
          rs.get? j = (runSetup model timeout (setups.get ⟨j, hj⟩)).toOption.map
            (withTestInfo (i + j) (setups.get ⟨j, hj⟩).question) := by
  intro setups
  induction setups with
  | nil =>
    intro i acc _
    refine ⟨[], by simp [runBenchmarkAux], rfl, fun j hj => absurd hj (by simp)⟩
  | cons s rest ih =>
    intro i acc h
    have hs := h s (List.mem_cons_self _ _)
    cases hr : runSetup model timeout s with
    | hangs => rw [hr] at hs; simp [RunResult.isReturns] at hs
    | returns r =>
      obtain ⟨rs, h1, h2, h3⟩ := ih (i + 1) (withTestInfo i s.question r :: acc)
        (fun s' hs' => h s' (List.mem_cons_of_mem _ hs'))
      refine ⟨withTestInfo i s.question r :: rs, ?_, by simp [h2], ?_⟩
      · simp only [runBenchmarkAux, hr, h1, List.reverse_cons, List.append_assoc,
          List.singleton_append]
      · intro j hj
        cases j with
        | zero => simp [hr, RunResult.toOption]
        | succ j' =>
          have hj' : j' < rest.length := Nat.lt_of_succ_lt_succ hj
          have := h3 j' hj'
          simpa [Nat.add_assoc, Nat.add_comm 1 j', Nat.add_left_comm] using this

/-- C5: the benchmark loop returns exactly one result per request, in the
input order — the `j`-th returned result is the decorated outcome of the
`j`-th request alone — and a failing trial (one whose `run_inference`
returns a failure dictionary) does not abort the loop or omit later
results; the hypothesis only excludes trials that never return at all. -/
theorem C5_one_result_per_request_in_order (model : String) (timeout : ℚ)
    (setups : List TrialSetup)
    (h : ∀ s ∈ setups, (runSetup model timeout s).isReturns = true) :
    ∃ rs, run_benchmark model timeout setups = some rs ∧
      rs.length = setups.length ∧
      ∀ j (hj : j < setups.length),
        rs.get? j = (runSetup model timeout (setups.get ⟨j, hj⟩)).toOption.map
          (withTestInfo (1 + j) (setups.get ⟨j, hj⟩).question) := by
  obtain ⟨rs, h1, h2, h3⟩ := runBenchmarkAux_spec model timeout setups 1 [] h
  exact ⟨rs, by simpa using h1, h2, h3⟩

/-- A process answering the first benchmark request: one line at instant 2,
stream end and exit at instant 3. -/
def bOk1 : ProcBehavior :=
  { lines := [(2, ['o', 'k', '\n'])], eof := some 3, exitTime := 3, exitCode := 0 }

/-- A process answering the third benchmark request: one line at instant 5,
stream end and exit at instant 6. -/
def bOk2 : ProcBehavior :=
  { lines := [(5, ['y', 'o', '\n'])], eof := some 6, exitTime := 6, exitCode := 0 }

/-- First benchmark request: succeeds. -/
def setupA : TrialSetup :=
  { question := "q1", prompt := ['a'], start := 1, launch := .starts bOk1,
    gpuBefore := none, gpuAfter := none }

/-- Second benchmark request: its spawn raises, so the trial fails. -/
def setupB : TrialSetup :=
  { question := "q2", prompt := ['b'], start := 4,
    launch := .fails "ollama: not found", gpuBefore := none, gpuAfter := none }

/-- Third benchmark request: succeeds. -/
def setupC : TrialSetup :=
  { question := "q3", prompt := ['c'], start := 4, launch := .starts bOk2,
    gpuBefore := none, gpuAfter := none }

/-- C5 witness: three requests of which the second fails: the loop returns
exactly 3 results, in input order, with the success pattern
`[true, false, true]`. -/
theorem C5_witness :
    (∃ rs, run_benchmark "gpt-oss:20b" 300 [setupA, setupB, setupC] = some rs ∧
      rs.length = [setupA, setupB, setupC].length ∧
      ∀ j (hj : j < [setupA, setupB, setupC].length),
        rs.get? j =
          (runSetup "gpt-oss:20b" 300
              ([setupA, setupB, setupC].get ⟨j, hj⟩)).toOption.map
            (withTestInfo (1 + j)
              ([setupA, setupB, setupC].get ⟨j, hj⟩).question)) ∧
    (run_benchmark "gpt-oss:20b" 300 [setupA, setupB, setupC]).map
        (List.map (fun r => r.success)) = some [true, false, true] := by
  have eA : runSetup "gpt-oss:20b" 300 setupA =
      .returns (successResult "gpt-oss:20b" ['a'] none none 1 (max 3 3)
        (readLoop bOk1.lines).1 (readLoop bOk1.lines).2) :=
    run_inference_success "gpt-oss:20b" ['a'] 300 none none 1 bOk1 3 rfl
      (by norm_num [bOk1])
  have eB : runSetup "gpt-oss:20b" 300 setupB =
      .returns (errorResult "gpt-oss:20b" "ollama: not found") :=
    run_inference_fails "gpt-oss:20b" ['b'] 300 none none 4 "ollama: not found"
  have eC : runSetup "gpt-oss:20b" 300 setupC =
      .returns (successResult "gpt-oss:20b" ['c'] none none 4 (max 6 6)
        (readLoop bOk2.lines).1 (readLoop bOk2.lines).2) :=
    run_inference_success "gpt-oss:20b" ['c'] 300 none none 4 bOk2 6 rfl
      (by norm_num [bOk2])
  have hyp : ∀ s ∈ [setupA, setupB, setupC],
      (runSetup "gpt-oss:20b" 300 s).isReturns = true := by
    intro s hs
    simp only [List.mem_cons, List.not_mem_nil, or_false] at hs
    rcases hs with rfl | rfl | rfl
    · rw [eA]; rfl
    · rw [eB]; rfl
    · rw [eC]; rfl
  refine ⟨C5_one_result_per_request_in_order "gpt-oss:20b" 300 _ hyp, ?_⟩
  have hrun : run_benchmark "gpt-oss:20b" 300 [setupA, setupB, setupC] =
      some [withTestInfo 1 "q1" (successResult "gpt-oss:20b" ['a'] none none 1
              (max 3 3) (readLoop bOk1.lines).1 (readLoop bOk1.lines).2),
            withTestInfo 2 "q2" (errorResult "gpt-oss:20b" "ollama: not found"),
            withTestInfo 3 "q3" (successResult "gpt-oss:20b" ['c'] none none 4
              (max 6 6) (readLoop bOk2.lines).1 (readLoop bOk2.lines).2)] := by
    simp only [run_benchmark, runBenchmarkAux, eA, eB, eC]
    rfl
  rw [hrun]
  rfl

/-- C4 witness: the amended statement applied to the lingering process with
telemetry available: the returned failure dictionary has no telemetry
keys. -/
theorem C4_witness :
    ∃ r, run_inference "gpt-oss:20b" ['p'] 5 (some g0) (some g0) 1
        (.starts bLinger) = .returns r ∧
      r.gpuBefore = none ∧ r.gpuAfter = none := by
  have h := run_inference_timeout "gpt-oss:20b" ['p'] 5 (some g0) (some g0) 1
    bLinger 2 rfl (by norm_num [bLinger])
  exact ⟨_, h,
    (C4_telemetry_only_on_success "gpt-oss:20b" ['p'] 5 (some g0) (some g0) 1
      (.starts bLinger) _ h).2 rfl⟩

/-! ## Statistics lemmas -/

/-- Python `min(values)` (a `foldl` over the tail) returns an element of the
list. -/
theorem foldl_min_mem (vs : List ℚ) : ∀ v, vs.foldl Min.min v ∈ v :: vs := by
  induction vs with
  | nil => intro v; simp
  | cons w ws ih =>
    intro v
    rw [List.foldl_cons]
    rcases List.mem_cons.mp (ih (Min.min v w)) with h' | h'
    · rcases min_choice v w with hm | hm
      · rw [h', hm]; exact List.mem_cons_self _ _
      · rw [h', hm]; exact List.mem_cons_of_mem _ (List.mem_cons_self _ _)
    · exact List.mem_cons_of_mem _ (List.mem_cons_of_mem _ h')

/-- The running minimum never exceeds its initial value. -/
theorem foldl_min_le_init (vs : List ℚ) : ∀ v, vs.foldl Min.min v ≤ v := by
  induction vs with
  | nil => intro v; exact le_refl v
  | cons w ws ih =>
    intro v
    rw [List.foldl_cons]
    exact le_trans (ih (Min.min v w)) (min_le_left v w)

/-- Python `min(values)` is a lower bound of the list. -/
theorem foldl_min_le (vs : List ℚ) : ∀ v x, x ∈ v :: vs → vs.foldl Min.min v ≤ x := by
  induction vs with
  | nil =>
    intro v x hx
    rw [List.mem_singleton.mp hx]
    exact le_refl v
  | cons w ws ih =>
    intro v x hx
    rw [List.foldl_cons]
    rcases List.mem_cons.mp hx with rfl | hx'
    · exact le_trans (foldl_min_le_init ws (Min.min x w)) (min_le_left x w)
    · rcases List.mem_cons.mp hx' with rfl | hx''
      · exact le_trans (foldl_min_le_init ws (Min.min v x)) (min_le_right v x)
      · exact ih (Min.min v w) x (List.mem_cons_of_mem _ hx'')

/-- Python `max(values)` (a `foldl` over the tail) returns an element of the
list. -/
theorem foldl_max_mem (vs : List ℚ) : ∀ v, vs.foldl Max.max v ∈ v :: vs := by
  induction vs with
  | nil => intro v; simp
  | cons w ws ih =>
    intro v
    rw [List.foldl_cons]
    rcases List.mem_cons.mp (ih (Max.max v w)) with h' | h'
    · rcases max_choice v w with hm | hm
      · rw [h', hm]; exact List.mem_cons_self _ _
      · rw [h', hm]; exact List.mem_cons_of_mem _ (List.mem_cons_self _ _)
    · exact List.mem_cons_of_mem _ (List.mem_cons_of_mem _ h')

/-- The running maximum never drops below its initial value. -/
theorem foldl_max_ge_init (vs : List ℚ) : ∀ v, v ≤ vs.foldl Max.max v := by
  induction vs with
  | nil => intro v; exact le_refl v
  | cons w ws ih =>
    intro v
    rw [List.foldl_cons]
    exact le_trans (le_max_left v w) (ih (Max.max v w))

/-- Python `max(values)` is an upper bound of the list. -/
theorem foldl_max_ge (vs : List ℚ) : ∀ v x, x ∈ v :: vs → x ≤ vs.foldl Max.max v := by
  induction vs with
  | nil =>
    intro v x hx
    rw [List.mem_singleton.mp hx]
    exact le_refl v
  | cons w ws ih =>
    intro v x hx
    rw [List.foldl_cons]
    rcases List.mem_cons.mp hx with rfl | hx'
    · exact le_trans (le_max_left x w) (foldl_max_ge_init ws (Max.max x w))
    · rcases List.mem_cons.mp hx' with rfl | hx''
      · exact le_trans (le_max_right v x) (foldl_max_ge_init ws (Max.max v x))
      · exact ih (Max.max v w) x (List.mem_cons_of_mem _ hx'')

/-- On a non-empty list, `stats` returns: the least element of the list, the
greatest element of the list, the arithmetic mean, and the element of the
sorted copy at index `length / 2` (which is in particular an element of the
list). -/
theorem stats_spec (v : ℚ) (vs : List ℚ) :
    ∃ s, stats (v :: vs) = some s ∧
      s.min ∈ v :: vs ∧ (∀ x ∈ v :: vs, s.min ≤ x) ∧
      s.max ∈ v :: vs ∧ (∀ x ∈ v :: vs, x ≤ s.max) ∧
      s.mean = (v :: vs).sum / ((v :: vs).length : ℚ) ∧
      s.median = ((v :: vs).insertionSort (· ≤ ·)).getD ((v :: vs).length / 2) 0 ∧
      s.median ∈ v :: vs := by
  have hlen : ((v :: vs).insertionSort (· ≤ ·)).length = (v :: vs).length :=
    (List.perm_insertionSort _ _).length_eq
  have hidx : (v :: vs).length / 2 < ((v :: vs).insertionSort (· ≤ ·)).length := by
    rw [hlen]
    exact Nat.div_lt_self (by simp) (by norm_num)
  refine ⟨_, rfl, foldl_min_mem vs v, fun x hx => foldl_min_le vs v x hx,
    foldl_max_mem vs v, fun x hx => foldl_max_ge vs v x hx, rfl, rfl, ?_⟩
  have hget : ((v :: vs).insertionSort (· ≤ ·)).getD ((v :: vs).length / 2) 0 =
      ((v :: vs).insertionSort (· ≤ ·)).get ⟨(v :: vs).length / 2, hidx⟩ :=
    List.getD_eq_get _ _ hidx
  show ((v :: vs).insertionSort (· ≤ ·)).getD ((v :: vs).length / 2) 0 ∈ v :: vs
  rw [hget]
  exact (List.perm_insertionSort _ _).mem_iff.mp (List.get_mem _ _ _)

/-- C6: `display_summary` computes its statistics over exactly the
successful results: with at least one success it produces a summary whose
four metric columns are `stats` of that metric read off the successful
results only, and on every non-empty value list `stats` returns the least
element, the greatest element, the arithmetic mean and a median element of
the list. -/
theorem C6_summary_stats_over_successes (rs : List TrialResult)
    (h : successfulResults rs ≠ []) :
    ∃ S, display_summary rs = some S ∧
      S.totalTimeStats =
        stats ((successfulResults rs).map (fun r => r.totalTime.getD 0)) ∧
      S.ttftStats = stats ((successfulResults rs).map (fun r => r.ttft.getD 0)) ∧
      S.tokensPerSecondStats =
        stats ((successfulResults rs).map (fun r => r.tokensPerSecond.getD 0)) ∧
      S.throughputStats =
        stats ((successfulResults rs).map (fun r => r.throughput.getD 0)) ∧
      ∀ vals : List ℚ, vals ≠ [] →
        ∃ s, stats vals = some s ∧
          s.min ∈ vals ∧ (∀ x ∈ vals, s.min ≤ x) ∧
          s.max ∈ vals ∧ (∀ x ∈ vals, x ≤ s.max) ∧
          s.mean * (vals.length : ℚ) = vals.sum ∧
          s.median ∈ vals := by
  have hne : (successfulResults rs).isEmpty = false := by
    cases he : successfulResults rs with
    | nil => exact absurd he h
    | cons a as => rfl
  have hds : display_summary rs = some
      { totalTimeStats :=
          stats ((successfulResults rs).map (fun r => r.totalTime.getD 0))
        ttftStats := stats ((successfulResults rs).map (fun r => r.ttft.getD 0))
        tokensPerSecondStats :=
          stats ((successfulResults rs).map (fun r => r.tokensPerSecond.getD 0))
        throughputStats :=
          stats ((successfulResults rs).map (fun r => r.throughput.getD 0))
        successCount := (successfulResults rs).length
        totalCount := rs.length } := by
    simp only [display_summary, hne, Bool.false_eq_true, if_false]
  refine ⟨_, hds, rfl, rfl, rfl, rfl, ?_⟩
  intro vals hvals
  cases vals with
  | nil => exact absurd rfl hvals
  | cons v vs =>
    obtain ⟨s, hs, h1, h2, h3, h4, h5, _, h7⟩ := stats_spec v vs
    refine ⟨s, hs, h1, h2, h3, h4, ?_, h7⟩
    rw [h5]
    have hne' : (((v :: vs).length : ℕ) : ℚ) ≠ 0 := by
      rw [Nat.cast_ne_zero]
      exact Nat.succ_ne_zero vs.length
    exact div_mul_cancel₀ _ hne'

/-- A failed trial result, as recorded for a timed-out trial. -/
def failedR : TrialResult := errorResult "gpt-oss:20b" "Timeout"

/-- C7: when no trial succeeded, `display_summary` does not produce any
summary at all — every statistic is undefined, none is reported as zero. -/
theorem C7_all_failed_summary_undefined (rs : List TrialResult)
    (h : ∀ r ∈ rs, r.success = false) :
    display_summary rs = none := by
  have hempty : successfulResults rs = [] := by
    rw [successfulResults, List.filter_eq_nil]
    intro r hr
    rw [h r hr]
    simp
  simp [display_summary, hempty]

/-- A successful trial result whose four recorded metrics all equal `q`
(only the `ttft` column is examined by the witness). -/
def okR (q : ℚ) : TrialResult :=
  { success := true, totalTime := some q, ttft := some q,
    tokensPerSecond := some q, throughput := some q }

/-- C6 witness: over three successful results with ttft values 1, 3 and 2,
the summary exists and its ttft column is min 1, max 3, mean 2, median 2. -/
theorem C6_witness :
    (display_summary [okR 1, okR 3, okR 2]).isSome = true ∧
    (display_summary [okR 1, okR 3, okR 2]).map (fun S => S.ttftStats) =
      some (some { min := 1, max := 3, mean := 2, median := 2 }) := by
  obtain ⟨S, hS, _, hT, _, _, _⟩ :=
    C6_summary_stats_over_successes [okR 1, okR 3, okR 2] (by decide)
  have hvals : (successfulResults [okR 1, okR 3, okR 2]).map
      (fun r => r.ttft.getD 0) = [1, 3, 2] := by decide
  have hstats : stats ((successfulResults [okR 1, okR 3, okR 2]).map
      (fun r => r.ttft.getD 0)) =
      some { min := 1, max := 3, mean := 2, median := 2 } := by
    rw [hvals]
    norm_num [stats, List.insertionSort, List.orderedInsert, min_def, max_def]
  constructor
  · rw [hS]; rfl
  · rw [hS]
    simp only [Option.map]
    rw [hT, hstats]

/-- C10: the median reported by `stats` is the element at index
`length / 2` of the sorted value list: for an even length `2 * k` it is the
upper of the two middle elements (the sorted element at index `k`, which is
at least the one at index `k - 1`), not their arithmetic mean, and for an
odd length `2 * k + 1` it is the true middle element (index `k`). -/
theorem C10_median_upper_middle (values : List ℚ) (h : values ≠ []) :
    ∃ s, stats values = some s ∧
      s.median = (values.insertionSort (· ≤ ·)).getD (values.length / 2) 0 ∧
      (∀ k, 1 ≤ k → values.length = 2 * k →
        s.median = (values.insertionSort (· ≤ ·)).getD k 0 ∧
        (values.insertionSort (· ≤ ·)).getD (k - 1) 0 ≤ s.median) ∧
      (∀ k, values.length = 2 * k + 1 →
        s.median = (values.insertionSort (· ≤ ·)).getD k 0) := by
  cases values with
  | nil => exact absurd rfl h
  | cons v vs =>
    have hsorted : List.Sorted (· ≤ ·) ((v :: vs).insertionSort (· ≤ ·)) :=
      List.sorted_insertionSort _ _
    have hlen : ((v :: vs).insertionSort (· ≤ ·)).length = (v :: vs).length :=
      (List.perm_insertionSort _ _).length_eq
    refine ⟨_, rfl, rfl, ?_, ?_⟩
    · intro k hk1 hk2
      have hdiv : (v :: vs).length / 2 = k := by omega
      have hk : k < ((v :: vs).insertionSort (· ≤ ·)).length := by
        rw [hlen]; omega
      have hk' : k - 1 < ((v :: vs).insertionSort (· ≤ ·)).length := by
        rw [hlen]; omega
      constructor
      · show ((v :: vs).insertionSort (· ≤ ·)).getD ((v :: vs).length / 2) 0 =
          ((v :: vs).insertionSort (· ≤ ·)).getD k 0
        rw [hdiv]
      · show ((v :: vs).insertionSort (· ≤ ·)).getD (k - 1) 0 ≤
          ((v :: vs).insertionSort (· ≤ ·)).getD ((v :: vs).length / 2) 0
        rw [hdiv, List.getD_eq_get _ _ hk, List.getD_eq_get _ _ hk']
        exact List.pairwise_iff_get.mp hsorted ⟨k - 1, hk'⟩ ⟨k, hk⟩ (by
          show k - 1 < k
          omega)
    · intro k hk2
      have hdiv : (v :: vs).length / 2 = k := by omega
      show ((v :: vs).insertionSort (· ≤ ·)).getD ((v :: vs).length / 2) 0 =
        ((v :: vs).insertionSort (· ≤ ·)).getD k 0
      rw [hdiv]

/-- C10 witness: on the even-length list `[1, 2, 3, 4]` the reported median
is `3` — the upper of the two middle values — and not `2.5`, the arithmetic
mean of the two middle values. -/
theorem C10_witness :
    (stats [(1 : ℚ), 2, 3, 4]).map (fun s => s.median) = some 3 ∧
    (3 : ℚ) ≠ (2 + 3) / 2 := by
  obtain ⟨s, hs, _, heven, _⟩ :=
    C10_median_upper_middle [(1 : ℚ), 2, 3, 4] (by simp)
  constructor
  · rw [hs]
    simp only [Option.map]
    have h2 := (heven 2 (by norm_num) (by simp)).1
    rw [h2]
    norm_num [List.insertionSort, List.orderedInsert]
  · norm_num

/-- C7 witness: a batch of two failed trials has no summary. -/
theorem C7_witness : display_summary [failedR, failedR] = none :=
  C7_all_failed_summary_undefined [failedR, failedR] (by
    intro r hr
    rcases List.mem_cons.mp hr with rfl | hr'
    · rfl
    · rw [List.mem_singleton.mp hr']; rfl)

/-! ## Non-negativity helpers -/

/-- Rounding to the nearest integer preserves non-negativity. -/
theorem roundHalfEven_nonneg (s : ℚ) (h : 0 ≤ s) : 0 ≤ roundHalfEven s := by
  have hf : (0 : ℤ) ≤ ⌊s⌋ := Int.floor_nonneg.mpr h
  rw [roundHalfEven]
  by_cases h1 : s - ⌊s⌋ < 1 / 2
  · rw [if_pos h1]; exact hf
  · rw [if_neg h1]
    by_cases h2 : 1 / 2 < s - ⌊s⌋
    · rw [if_pos h2]; omega
    · rw [if_neg h2]
      by_cases h3 : ⌊s⌋ % 2 = 0
      · rw [if_pos h3]; exact hf
      · rw [if_neg h3]; omega

/-- Python `round(x, d)` preserves non-negativity. -/
theorem pyRound_nonneg (d : ℕ) (x : ℚ) (h : 0 ≤ x) : 0 ≤ pyRound d x := by
  rw [pyRound]
  have hnum : (0 : ℚ) ≤ (roundHalfEven (x * 10 ^ d) : ℤ) := by
    exact_mod_cast roundHalfEven_nonneg _ (by positivity)
  exact div_nonneg hnum (by positivity)

/-- Python `int()` preserves non-negativity. -/
theorem pyInt_nonneg (x : ℚ) (h : 0 ≤ x) : 0 ≤ pyInt x := by
  rw [pyInt]
  have hn : 0 ≤ x.num := Rat.num_nonneg.mpr h
  exact mul_nonneg (Int.sign_nonneg.mpr hn) (Int.natCast_nonneg _)

/-- The token estimate is never negative. -/
theorem estimate_tokens_nonneg (text : PyStr) : 0 ≤ estimate_tokens text := by
  rw [estimate_tokens]
  positivity

/-- The `tokens_per_second` computation is never negative when the output
estimate is not. -/
theorem tokensPerSecondOf_nonneg (tt tf out : ℚ) (h : 0 ≤ out) :
    0 ≤ tokensPerSecondOf tt tf out := by
  rw [tokensPerSecondOf]
  by_cases h1 : tt > tf
  · rw [if_pos h1]
    exact div_nonneg h (sub_pos.mpr h1).le
  · rw [if_neg h1]
    by_cases h2 : tt > 0
    · rw [if_pos h2]
      exact div_nonneg h h2.le
    · rw [if_neg h2]

/-- A positive optional float is truthy. -/
theorem pyTruthy_of_pos (t : ℚ) (h : 0 < t) : pyTruthy (some t) = true := by
  simp only [pyTruthy, bne_iff_ne, ne_eq]
  exact ne_of_gt h

/-! ## Field equations of the success dictionary -/

/-- The `ttft_seconds` key of a success dictionary. -/
theorem successResult_ttft (model : String) (prompt : PyStr)
    (gB gA : Option GpuMetrics) (start endTime : ℚ) (outputLines : List PyStr)
    (ft : Option ℚ) :
    (successResult model prompt gB gA start endTime outputLines ft).ttft =
      some (pyRound 3 (if pyTruthy ft then ft.getD 0 - start
                       else endTime - start)) := rfl

/-- The `tokens_per_second` key of a success dictionary. -/
theorem successResult_tokensPerSecond (model : String) (prompt : PyStr)
    (gB gA : Option GpuMetrics) (start endTime : ℚ) (outputLines : List PyStr)
    (ft : Option ℚ) :
    (successResult model prompt gB gA start endTime outputLines ft).tokensPerSecond =
      some (pyRound 2 (tokensPerSecondOf (endTime - start)
        (if pyTruthy ft then ft.getD 0 - start else endTime - start)
        (estimate_tokens (pyJoinLines outputLines)))) := rfl

/-- The `total_time_seconds` key of a success dictionary. -/
theorem successResult_totalTime (model : String) (prompt : PyStr)
    (gB gA : Option GpuMetrics) (start endTime : ℚ) (outputLines : List PyStr)
    (ft : Option ℚ) :
    (successResult model prompt gB gA start endTime outputLines ft).totalTime =
      some (pyRound 3 (endTime - start)) := rfl

/-- The `throughput_tokens_per_second` key of a success dictionary. -/
theorem successResult_throughput (model : String) (prompt : PyStr)
    (gB gA : Option GpuMetrics) (start endTime : ℚ) (outputLines : List PyStr)
    (ft : Option ℚ) :
    (successResult model prompt gB gA start endTime outputLines ft).throughput =
      some (if endTime - start > 0 then
        pyRound 2 ((estimate_tokens prompt +
          estimate_tokens (pyJoinLines outputLines)) / (endTime - start))
      else 0) := rfl

/-- In a well-formed behaviour, the recorded first-token instant lies
between `start` and end-of-file. -/
theorem ft_bounds (start : ℚ) (b : ProcBehavior) (tEof : ℚ) (hwf : b.WF start)
    (heof : b.eof = some tEof) (t : ℚ) (hft : (readLoop b.lines).2 = some t) :
    start ≤ t ∧ t ≤ tEof := by
  obtain ⟨p, hp, hpt⟩ := readLoop_ft_mem b.lines t hft
  exact ⟨hpt ▸ hwf.lines_ge_start p hp, hpt ▸ hwf.lines_le_eof tEof heof p hp⟩

/-- C8: the generation rate of a successful trial equals the output-token
estimate divided by `end − first_token` when a first token was recorded and
`end` exceeds it; otherwise (first token at or past `end`, or no first
token at all — the fallback the claim highlights) it equals the estimate
divided by `end − start` when that duration is positive and `0` when it is
not.  (The stored key rounds the rate to two decimal digits, as the source
does.) -/
theorem C8_generation_rate (model : String) (prompt : PyStr) (timeout : ℚ)
    (gB gA : Option GpuMetrics) (start : ℚ) (b : ProcBehavior) (tEof : ℚ)
    (hwf : b.WF start) (heof : b.eof = some tEof)
    (ht : ¬tEof + timeout < b.exitTime) :
    ∃ r, run_inference model prompt timeout gB gA start (.starts b) =
        .returns r ∧
      (∀ t, (readLoop b.lines).2 = some t → t < max tEof b.exitTime →
        r.tokensPerSecond = some (pyRound 2
          (estimate_tokens (pyJoinLines (readLoop b.lines).1) /
            (max tEof b.exitTime - t)))) ∧
      (∀ t, (readLoop b.lines).2 = some t → max tEof b.exitTime ≤ t →
        r.tokensPerSecond = some (pyRound 2
          (if 0 < max tEof b.exitTime - start then
            estimate_tokens (pyJoinLines (readLoop b.lines).1) /
              (max tEof b.exitTime - start)
           else 0))) ∧
      ((readLoop b.lines).2 = none →
        r.tokensPerSecond = some (pyRound 2
          (if 0 < max tEof b.exitTime - start then
            estimate_tokens (pyJoinLines (readLoop b.lines).1) /
              (max tEof b.exitTime - start)
           else 0))) := by
  refine ⟨_, run_inference_success model prompt timeout gB gA start b tEof heof ht,
    ?_, ?_, ?_⟩
  · intro t hft hlt
    have hpos : 0 < t :=
      lt_of_lt_of_le hwf.start_pos (ft_bounds start b tEof hwf heof t hft).1
    rw [successResult_tokensPerSecond, hft, Option.getD_some,
      if_pos (pyTruthy_of_pos t hpos), tokensPerSecondOf,
      if_pos (by linarith : max tEof b.exitTime - start > t - start)]
    have harith : max tEof b.exitTime - start - (t - start) =
        max tEof b.exitTime - t := by ring
    rw [harith]
  · intro t hft hle
    have hpos : 0 < t :=
      lt_of_lt_of_le hwf.start_pos (ft_bounds start b tEof hwf heof t hft).1
    rw [successResult_tokensPerSecond, hft, Option.getD_some,
      if_pos (pyTruthy_of_pos t hpos), tokensPerSecondOf,
      if_neg (by linarith : ¬max tEof b.exitTime - start > t - start)]
  · intro hft
    have hfalse : ¬pyTruthy (readLoop b.lines).2 = true := by
      rw [hft]
      simp [pyTruthy]
    rw [successResult_tokensPerSecond, if_neg hfalse, tokensPerSecondOf,
      if_neg (lt_irrefl _)]

/-- The first benchmark process is well formed for a trial started at
instant 1. -/
theorem bOk1_wf : bOk1.WF 1 := by
  refine ⟨by norm_num, ?_, ?_, ?_, ?_⟩
  · intro p hp
    rw [show bOk1.lines = [(2, ['o', 'k', '\n'])] from rfl,
      List.mem_singleton] at hp
    rw [hp]
    norm_num
  · intro tEof hEof p hp
    rw [show bOk1.eof = some 3 from rfl, Option.some.injEq] at hEof
    rw [show bOk1.lines = [(2, ['o', 'k', '\n'])] from rfl,
      List.mem_singleton] at hp
    rw [hp, ← hEof]
    norm_num
  · intro tEof hEof
    rw [show bOk1.eof = some 3 from rfl, Option.some.injEq] at hEof
    rw [← hEof]
    norm_num
  · show (1 : ℚ) ≤ bOk1.exitTime
    norm_num [bOk1]

/-- C8 witness: for the first benchmark process (one two-character line at
instant 2, end at instant 3, trial started at 1) the generation rate is the
estimate `0.5` tokens over the one-second post-first-token span, `0.5`
tokens per second. -/
theorem C8_witness :
    ∃ r, run_inference "gpt-oss:20b" ['a'] 300 none none 1 (.starts bOk1) =
        .returns r ∧ r.tokensPerSecond = some (1 / 2) := by
  obtain ⟨r, hr, h1, _, _⟩ :=
    C8_generation_rate "gpt-oss:20b" ['a'] 300 none none 1 bOk1 3 bOk1_wf rfl
      (by norm_num [bOk1])
  refine ⟨r, hr, ?_⟩
  have hrl : readLoop bOk1.lines = ([['o', 'k']], some 2) := by decide
  have hmax : max (3 : ℚ) bOk1.exitTime = 3 := by norm_num [bOk1]
  have h2 := h1 2 (by rw [hrl]) (by rw [hmax]; norm_num)
  rw [h2, hrl, hmax]
  have hest : estimate_tokens (pyJoinLines ([['o', 'k']], some (2 : ℚ)).1) = 1 / 2 := by
    have hj : pyJoinLines ([['o', 'k']], some (2 : ℚ)).1 = ['o', 'k'] := by decide
    rw [hj, estimate_tokens]
    norm_num
  rw [hest]
  norm_num [pyRound, roundHalfEven]

/-- C9: a successful trial satisfies the claimed invariants: whenever the
first-token instant is present it lies between `start` and the end instant;
the recorded output length is a natural number (hence non-negative); and
every derived metric key — total time, ttft, generation rate, throughput
and the three token estimates — is present and non-negative (and, being a
rational in this model, finite). -/
theorem C9_success_invariants (model : String) (prompt : PyStr) (timeout : ℚ)
    (gB gA : Option GpuMetrics) (start : ℚ) (b : ProcBehavior) (tEof : ℚ)
    (hwf : b.WF start) (heof : b.eof = some tEof)
    (ht : ¬tEof + timeout < b.exitTime) :
    ∃ r, run_inference model prompt timeout gB gA start (.starts b) =
        .returns r ∧
      r.success = true ∧
      (∀ t, (readLoop b.lines).2 = some t →
        start ≤ t ∧ t ≤ max tEof b.exitTime) ∧
      (∃ n : ℕ, r.responseLength = some n) ∧
      (∃ q, r.totalTime = some q ∧ 0 ≤ q) ∧
      (∃ q, r.ttft = some q ∧ 0 ≤ q) ∧
      (∃ q, r.tokensPerSecond = some q ∧ 0 ≤ q) ∧
      (∃ q, r.throughput = some q ∧ 0 ≤ q) ∧
      (∃ z, r.inputTokensEst = some z ∧ 0 ≤ z) ∧
      (∃ z, r.outputTokensEst = some z ∧ 0 ≤ z) ∧
      (∃ z, r.totalTokensEst = some z ∧ 0 ≤ z) := by
  have hse : start ≤ max tEof b.exitTime :=
    le_trans (hwf.start_le_eof tEof heof) (le_max_left _ _)
  have httft : 0 ≤ if pyTruthy (readLoop b.lines).2 then
      ((readLoop b.lines).2).getD 0 - start else max tEof b.exitTime - start := by
    by_cases hb : pyTruthy (readLoop b.lines).2 = true
    · rw [if_pos hb]
      cases hft : (readLoop b.lines).2 with
      | none => rw [hft] at hb; simp [pyTruthy] at hb
      | some t =>
        rw [Option.getD_some]
        have := (ft_bounds start b tEof hwf heof t hft).1
        linarith
    · rw [if_neg hb]
      linarith
  refine ⟨_, run_inference_success model prompt timeout gB gA start b tEof heof ht,
    rfl, ?_, ⟨_, rfl⟩, ?_, ?_, ?_, ?_, ?_, ?_, ?_⟩
  · intro t hft
    obtain ⟨h1, h2⟩ := ft_bounds start b tEof hwf heof t hft
    exact ⟨h1, le_trans h2 (le_max_left _ _)⟩
  · exact ⟨_, successResult_totalTime model prompt gB gA start _ _ _,
      pyRound_nonneg 3 _ (by linarith)⟩
  · exact ⟨_, successResult_ttft model prompt gB gA start _ _ _,
      pyRound_nonneg 3 _ httft⟩
  · exact ⟨_, successResult_tokensPerSecond model prompt gB gA start _ _ _,
      pyRound_nonneg 2 _ (tokensPerSecondOf_nonneg _ _ _
        (estimate_tokens_nonneg _))⟩
  · refine ⟨_, successResult_throughput model prompt gB gA start _ _ _, ?_⟩
    by_cases hpos : max tEof b.exitTime - start > 0
    · rw [if_pos hpos]
      exact pyRound_nonneg 2 _ (div_nonneg
        (add_nonneg (estimate_tokens_nonneg _) (estimate_tokens_nonneg _))
        hpos.le)
    · rw [if_neg hpos]
  · exact ⟨_, rfl, pyInt_nonneg _ (estimate_tokens_nonneg _)⟩
  · exact ⟨_, rfl, pyInt_nonneg _ (estimate_tokens_nonneg _)⟩
  · exact ⟨_, rfl, pyInt_nonneg _
      (add_nonneg (estimate_tokens_nonneg _) (estimate_tokens_nonneg _))⟩

/-- C9 witness: the invariants instantiated on the first benchmark
process. -/
theorem C9_witness :
    ∃ r, run_inference "gpt-oss:20b" ['a'] 300 none none 1 (.starts bOk1) =
        .returns r ∧
      r.success = true ∧
      (∀ t, (readLoop bOk1.lines).2 = some t →
        (1 : ℚ) ≤ t ∧ t ≤ max 3 bOk1.exitTime) ∧
      (∃ n : ℕ, r.responseLength = some n) ∧
      (∃ q, r.totalTime = some q ∧ 0 ≤ q) ∧
      (∃ q, r.ttft = some q ∧ 0 ≤ q) ∧
      (∃ q, r.tokensPerSecond = some q ∧ 0 ≤ q) ∧
      (∃ q, r.throughput = some q ∧ 0 ≤ q) ∧
      (∃ z, r.inputTokensEst = some z ∧ 0 ≤ z) ∧
      (∃ z, r.outputTokensEst = some z ∧ 0 ≤ z) ∧
      (∃ z, r.totalTokensEst = some z ∧ 0 ≤ z) :=
  C9_success_invariants "gpt-oss:20b" ['a'] 300 none none 1 bOk1 3 bOk1_wf rfl
    (by norm_num [bOk1])

end PerfBench
